import Mathlib

/-!
Shallow embedding of `src/yb/master/xcluster/add_table_to_xcluster_target_task.cc`
(the `AddTableToXClusterTargetTask` orchestration state machine).

Each step function of the task is modelled as a pure Lean function from the
task's mutable fields plus the results the external collaborators deliver
during that step, to a `StepOutcome` recording: the `Status` the step returns,
whether `Complete()` was called, which next step (if any) was scheduled and
whether with the fixed delay, which remote-collaborator calls were issued, the
task fields afterwards, and whether a `CHECK` macro fired (process crash).
-/

namespace YbMaster

/-- Status codes needed by the task: OK, IllegalState (raised by `SCHECK`),
NotFound (recognised via `IsNotFound`), and any other error code. -/
inductive StatusCode where
  | ok
  | illegalState
  | notFound
  | otherError
deriving DecidableEq, Repr

/-- A `yb::Status`: a code plus a message. -/
structure Status where
  code : StatusCode
  msg : String
deriving DecidableEq, Repr

def Status.OK : Status := ⟨StatusCode.ok, ""⟩

def Status.IllegalState (m : String) : Status := ⟨StatusCode.illegalState, m⟩

def Status.isOK (s : Status) : Bool := s.code == StatusCode.ok

def Status.IsNotFound (s : Status) : Bool := s.code == StatusCode.notFound

/-- `VERIFY_RESULT_PREPEND` prepends a message to the error status it
propagates, keeping the code. -/
def Status.prepend (s : Status) (m : String) : Status := ⟨s.code, m ++ ": " ++ s.msg⟩

/-- Modelled from the spec: `HybridTime` (from `yb/common/hybrid_time.h`, not in
src/) is a logical timestamp, a 64-bit representation value; the spec calls
certain sentinel values the "special"/"invalid" timestamps. We model the
representation as a `Nat` below `2^64` with the minimum, maximum and invalid
sentinels as the special values. -/
structure HybridTime where
  v : Nat
deriving DecidableEq, Repr

/-- Modelled from the spec: the minimum representation value. -/
def kMinHybridTimeValue : Nat := 0

/-- Modelled from the spec: the maximum representation value. -/
def kMaxHybridTimeValue : Nat := 2 ^ 64 - 1

/-- Modelled from the spec: the sentinel "invalid" representation value. -/
def kInvalidHybridTimeValue : Nat := 2 ^ 64 - 2

/-- Modelled from the spec: a timestamp is "special" when it is one of the
sentinel values rather than a concrete, comparable point in time. -/
def HybridTime.is_special (t : HybridTime) : Bool :=
  t.v == kMinHybridTimeValue || t.v == kMaxHybridTimeValue || t.v == kInvalidHybridTimeValue

/-- Modelled from the spec: `MakeAtLeast` raises the timestamp to be at least
the other one (takes the max of the representation values). -/
def HybridTime.MakeAtLeast (t other : HybridTime) : HybridTime :=
  if t.v < other.v then other else t

/-- Modelled from the spec: a timestamp synthesized from a wall-clock
microsecond count (the physical component of the hybrid time). -/
def HybridTime.FromMicros (micros : Nat) : HybridTime :=
  ⟨(micros * 2 ^ 12) % 2 ^ 64⟩

/-- `HybridTime` comparison (`operator<=`) compares representation values. -/
def HybridTime.le (a b : HybridTime) : Bool := a.v ≤ b.v

/-- The tuple inside a successful `client::BootstrapProducerResult`:
parallel lists of producer table ids and bootstrap ids, plus the bootstrap
(checkpoint) time. -/
structure BootstrapProducerInfo where
  producer_table_ids : List String
  bootstrap_ids : List String
  bootstrap_time : HybridTime
deriving DecidableEq, Repr

/-- `client::BootstrapProducerResult`: an error status or the bootstrap info. -/
def BootstrapProducerResult := Except Status BootstrapProducerInfo

/-- `AlterUniverseReplicationResponsePB`, reduced to what the task reads:
`has_error()` / `error().status()` becomes an optional embedded status. -/
structure AlterUniverseReplicationResponsePB where
  error : Option Status
deriving DecidableEq, Repr

/-- `IsOperationDoneResult`: whether the operation is done, and its status. -/
structure IsOperationDoneResult where
  done : Bool
  status : Status
deriving DecidableEq, Repr

/-- The named steps of the task that can be scheduled. -/
inductive StepName where
  | FirstStep
  | AddTableToReplicationGroup
  | WaitForSetupUniverseReplicationToFinish
  | RefreshAndGetXClusterSafeTime
  | WaitForXClusterSafeTimeCaughtUp
deriving DecidableEq, Repr

/-- What a step scheduled on return: nothing, the next step immediately
(`SCHEDULE`), or the next step after the fixed `kScheduleDelay`
(`SCHEDULE_WITH_DELAY`). -/
inductive Sched where
  | none
  | now (next : StepName)
  | withDelay (next : StepName)
deriving DecidableEq, Repr

/-- The remote-collaborator calls a step can issue. -/
inductive RemoteCall where
  | BootstrapProducer
  | GetXClusterTableCheckpointInfos
  | AlterUniverseReplication
  | IsSetupUniverseReplicationDone
  | RefreshXClusterSafeTimeMap
  | GetXClusterSafeTimeForNamespace
deriving DecidableEq, Repr

/-- The task-instance fields the steps read and write:
`is_db_scoped_` (set at construction from the group config), `bootstrap_time_`
(the checkpoint time, set in `AddTableToReplicationGroup`), and
`initial_xcluster_safe_time_` (set in `RefreshAndGetXClusterSafeTime`). -/
structure TaskState where
  is_db_scoped_ : Bool
  bootstrap_time_ : HybridTime
  initial_xcluster_safe_time_ : HybridTime
deriving DecidableEq, Repr

/-- The observable outcome of running one step:
the `Status` the step function returned, whether `Complete()` was called,
what was scheduled, which remote calls were issued, the task fields
afterwards, and whether a `CHECK` macro fired (aborting the process). -/
structure StepOutcome where
  status : Status
  completed : Bool
  sched : Sched
  calls : List RemoteCall
  state : TaskState
  crashed : Bool
deriving DecidableEq, Repr

/-- The collaborator results consumed by `FirstStep`:
the `ShouldAddTableToReplicationGroup` verdict, the two test hooks, and the
results of the calls each dispatch branch makes. -/
structure FirstStepEnv where
  should_add : Except Status Bool
  test_fail_flag : Bool
  abandon_task : Bool
  xcluster_rpc : Except Status Unit
  bootstrap_call : Status
  producer_namespace_id : Except Status String
  remote_client : Except Status Unit
  checkpoint_call : Status
deriving Repr

/-- `AddTableToXClusterTargetTask::FirstStep`.
Checks `ShouldAddTableToReplicationGroup`; completes if the table does not
need adding. Then `SCHECK`s the `TEST_xcluster_fail_table_create_during_bootstrap`
flag, consults the test-only abandon sync point (returning OK with nothing
scheduled when it fires), and finally dispatches the checkpoint call:
`BootstrapProducer` for non-db-scoped groups, `GetXClusterTableCheckpointInfos`
for db-scoped groups (after resolving the producer namespace id and the remote
client). The async callback later schedules `AddTableToReplicationGroup`. -/
def FirstStep (st : TaskState) (env : FirstStepEnv) : StepOutcome :=
  match env.should_add with
  | Except.error e => ⟨e, false, Sched.none, [], st, false⟩
  | Except.ok need_add =>
    if !need_add then
      ⟨Status.OK, true, Sched.none, [], st, false⟩
    else if env.test_fail_flag then
      ⟨Status.IllegalState "FLAGS_TEST_xcluster_fail_table_create_during_bootstrap",
        false, Sched.none, [], st, false⟩
    else if env.abandon_task then
      ⟨Status.OK, false, Sched.none, [], st, false⟩
    else if !st.is_db_scoped_ then
      match env.xcluster_rpc with
      | Except.error e => ⟨e, false, Sched.none, [], st, false⟩
      | Except.ok _ =>
        ⟨env.bootstrap_call, false, Sched.none, [RemoteCall.BootstrapProducer], st, false⟩
    else
      match env.producer_namespace_id with
      | Except.error e => ⟨e, false, Sched.none, [], st, false⟩
      | Except.ok _ =>
        match env.remote_client with
        | Except.error e => ⟨e, false, Sched.none, [], st, false⟩
        | Except.ok _ =>
          ⟨env.checkpoint_call, false, Sched.none,
            [RemoteCall.GetXClusterTableCheckpointInfos], st, false⟩

/-- The completion callback registered by `FirstStep`: when the checkpoint
result arrives it schedules `AddTableToReplicationGroup` immediately. -/
def bootstrap_callback : Sched := Sched.now StepName.AddTableToReplicationGroup

/-- The collaborator results consumed by `AddTableToReplicationGroup`:
the wall clock (`GetCurrentTimeMicros`) and the transport-level result of
`AlterUniverseReplication` carrying the response. -/
structure AddTableEnv where
  now_micros : Nat
  alter_result : Except Status AlterUniverseReplicationResponsePB
deriving Repr

/-- The tail of `AddTableToXClusterTargetTask::AddTableToReplicationGroup`
once `bootstrap_time_` has been set: issue the `AlterUniverseReplication`
mutation; `RETURN_NOT_OK` propagates a transport failure, an embedded response
error is returned via `StatusFromPB`, and on success
`WaitForSetupUniverseReplicationToFinish` is scheduled with the fixed delay. -/
def issueAlter (st : TaskState) (env : AddTableEnv) : StepOutcome :=
  match env.alter_result with
  | Except.error e =>
    ⟨e, false, Sched.none, [RemoteCall.AlterUniverseReplication], st, false⟩
  | Except.ok resp =>
    match resp.error with
    | some e =>
      ⟨e, false, Sched.none, [RemoteCall.AlterUniverseReplication], st, false⟩
    | none =>
      ⟨Status.OK, false, Sched.withDelay StepName.WaitForSetupUniverseReplicationToFinish,
        [RemoteCall.AlterUniverseReplication], st, false⟩

/-- `AddTableToXClusterTargetTask::AddTableToReplicationGroup`.
`VERIFY_RESULT_PREPEND` propagates a failed bootstrap result; `CHECK_EQ`
crashes unless both returned lists have exactly one entry; for db-scoped
groups `bootstrap_time_` is set to `HybridTime::FromMicros(GetCurrentTimeMicros())`
ignoring the returned time, for non-db-scoped groups an `SCHECK` rejects a
special returned time and otherwise `bootstrap_time_` is set to it; then the
membership mutation is issued (`issueAlter`). -/
def AddTableToReplicationGroup (st : TaskState) (bootstrap_result : BootstrapProducerResult)
    (env : AddTableEnv) : StepOutcome :=
  match bootstrap_result with
  | Except.error e =>
    ⟨e.prepend "Failed to bootstrap table for xCluster replication group",
      false, Sched.none, [], st, false⟩
  | Except.ok r =>
    if r.producer_table_ids.length = 1 ∧ r.bootstrap_ids.length = 1 then
      if st.is_db_scoped_ then
        issueAlter { st with bootstrap_time_ := HybridTime.FromMicros env.now_micros } env
      else if r.bootstrap_time.is_special then
        ⟨Status.IllegalState "xCluster Bootstrap time is not valid",
          false, Sched.none, [], st, false⟩
      else
        issueAlter { st with bootstrap_time_ := r.bootstrap_time } env
    else
      ⟨Status.OK, false, Sched.none, [], st, true⟩

/-- `AddTableToXClusterTargetTask::WaitForSetupUniverseReplicationToFinish`.
Polls `IsSetupUniverseReplicationDone`; a failed poll propagates; when not
done the same step is re-scheduled with the fixed delay; when done with an
error status `RETURN_NOT_OK` propagates it; when done successfully
`RefreshAndGetXClusterSafeTime` is scheduled immediately. -/
def WaitForSetupUniverseReplicationToFinish (st : TaskState)
    (operation_result : Except Status IsOperationDoneResult) : StepOutcome :=
  match operation_result with
  | Except.error e =>
    ⟨e, false, Sched.none, [RemoteCall.IsSetupUniverseReplicationDone], st, false⟩
  | Except.ok r =>
    if !r.done then
      ⟨Status.OK, false, Sched.withDelay StepName.WaitForSetupUniverseReplicationToFinish,
        [RemoteCall.IsSetupUniverseReplicationDone], st, false⟩
    else if !r.status.isOK then
      ⟨r.status, false, Sched.none, [RemoteCall.IsSetupUniverseReplicationDone], st, false⟩
    else
      ⟨Status.OK, false, Sched.now StepName.RefreshAndGetXClusterSafeTime,
        [RemoteCall.IsSetupUniverseReplicationDone], st, false⟩

/-- `AddTableToXClusterTargetTask::GetXClusterSafeTimeWithoutDdlQueue`,
as a function of the result `GetXClusterSafeTimeForNamespace` returned:
a non-NotFound error propagates; a NotFound error becomes `none` (namespace
no longer replicated); a special safe time fails the `SCHECK` with
IllegalState; otherwise the safe time is returned. -/
def GetXClusterSafeTimeWithoutDdlQueue (safe_time_res : Except Status HybridTime) :
    Except Status (Option HybridTime) :=
  match safe_time_res with
  | Except.error e =>
    if !e.IsNotFound then Except.error e else Except.ok none
  | Except.ok t =>
    if t.is_special then
      Except.error (Status.IllegalState "Invalid safe time for namespace")
    else
      Except.ok (some t)

/-- The collaborator results consumed by `RefreshAndGetXClusterSafeTime`:
the status of `RefreshXClusterSafeTimeMap` and the result of
`GetXClusterSafeTimeForNamespace`. -/
structure RefreshEnv where
  refresh_status : Status
  safe_time_res : Except Status HybridTime
deriving Repr

/-- `AddTableToXClusterTargetTask::RefreshAndGetXClusterSafeTime`.
`RETURN_NOT_OK` propagates a failed refresh; a failed safe-time read
propagates; `none` (namespace no longer replicated) completes the task;
otherwise `initial_xcluster_safe_time_` is set to the safe time raised by
`MakeAtLeast` to be at least `bootstrap_time_`, and
`WaitForXClusterSafeTimeCaughtUp` is scheduled with the fixed delay. -/
def RefreshAndGetXClusterSafeTime (st : TaskState) (env : RefreshEnv) : StepOutcome :=
  if !env.refresh_status.isOK then
    ⟨env.refresh_status, false, Sched.none, [RemoteCall.RefreshXClusterSafeTimeMap], st, false⟩
  else
    match GetXClusterSafeTimeWithoutDdlQueue env.safe_time_res with
    | Except.error e =>
      ⟨e, false, Sched.none,
        [RemoteCall.RefreshXClusterSafeTimeMap, RemoteCall.GetXClusterSafeTimeForNamespace],
        st, false⟩
    | Except.ok none =>
      ⟨Status.OK, true, Sched.none,
        [RemoteCall.RefreshXClusterSafeTimeMap, RemoteCall.GetXClusterSafeTimeForNamespace],
        st, false⟩
    | Except.ok (some initial_safe_time) =>
      ⟨Status.OK, false, Sched.withDelay StepName.WaitForXClusterSafeTimeCaughtUp,
        [RemoteCall.RefreshXClusterSafeTimeMap, RemoteCall.GetXClusterSafeTimeForNamespace],
        { st with initial_xcluster_safe_time_ := initial_safe_time.MakeAtLeast st.bootstrap_time_ },
        false⟩

/-- `AddTableToXClusterTargetTask::WaitForXClusterSafeTimeCaughtUp`.
A failed safe-time read propagates; `none` completes the task; a safe time
`<= initial_xcluster_safe_time_` re-schedules this same step with the fixed
delay; a safe time strictly beyond it completes the task. -/
def WaitForXClusterSafeTimeCaughtUp (st : TaskState)
    (safe_time_res : Except Status HybridTime) : StepOutcome :=
  match GetXClusterSafeTimeWithoutDdlQueue safe_time_res with
  | Except.error e =>
    ⟨e, false, Sched.none, [RemoteCall.GetXClusterSafeTimeForNamespace], st, false⟩
  | Except.ok none =>
    ⟨Status.OK, true, Sched.none, [RemoteCall.GetXClusterSafeTimeForNamespace], st, false⟩
  | Except.ok (some ht) =>
    if ht.le st.initial_xcluster_safe_time_ then
      ⟨Status.OK, false, Sched.withDelay StepName.WaitForXClusterSafeTimeCaughtUp,
        [RemoteCall.GetXClusterSafeTimeForNamespace], st, false⟩
    else
      ⟨Status.OK, true, Sched.none, [RemoteCall.GetXClusterSafeTimeForNamespace], st, false⟩

/-! ## Helper lemmas -/

/-- `issueAlter` never touches the task fields it is given. -/
theorem issueAlter_state (st : TaskState) (env : AddTableEnv) :
    (issueAlter st env).state = st := by
  obtain ⟨now, alter⟩ := env
  unfold issueAlter
  rcases alter with e | ⟨err⟩
  · rfl
  · rcases err with _ | e <;> rfl

/-- `issueAlter` always issues exactly the membership mutation call. -/
theorem issueAlter_calls (st : TaskState) (env : AddTableEnv) :
    (issueAlter st env).calls = [RemoteCall.AlterUniverseReplication] := by
  obtain ⟨now, alter⟩ := env
  unfold issueAlter
  rcases alter with e | ⟨err⟩
  · rfl
  · rcases err with _ | e <;> rfl

/-- `issueAlter` never calls `Complete` and never crashes. -/
theorem issueAlter_not_completed (st : TaskState) (env : AddTableEnv) :
    (issueAlter st env).completed = false ∧ (issueAlter st env).crashed = false := by
  obtain ⟨now, alter⟩ := env
  unfold issueAlter
  rcases alter with e | ⟨err⟩
  · exact ⟨rfl, rfl⟩
  · rcases err with _ | e <;> exact ⟨rfl, rfl⟩

/-- The status `issueAlter` returns: the transport error if the RPC failed,
else the embedded response error if any, else OK. -/
theorem issueAlter_status (st : TaskState) (env : AddTableEnv) :
    (issueAlter st env).status =
      (match env.alter_result with
       | Except.error e => e
       | Except.ok resp => resp.error.getD Status.OK) := by
  obtain ⟨now, alter⟩ := env
  unfold issueAlter
  rcases alter with e | ⟨err⟩
  · rfl
  · rcases err with _ | e <;> rfl

/-- `issueAlter` schedules `WaitForSetupUniverseReplicationToFinish` with the
fixed delay exactly when the mutation succeeded with no embedded error. -/
theorem issueAlter_sched (st : TaskState) (env : AddTableEnv) :
    (issueAlter st env).sched =
      (match env.alter_result with
       | Except.error _ => Sched.none
       | Except.ok resp =>
         match resp.error with
         | some _ => Sched.none
         | none => Sched.withDelay StepName.WaitForSetupUniverseReplicationToFinish) := by
  obtain ⟨now, alter⟩ := env
  unfold issueAlter
  rcases alter with e | ⟨err⟩
  · rfl
  · rcases err with _ | e <;> rfl

/-- `MakeAtLeast` computes the max of the representation values. -/
theorem MakeAtLeast_v (a b : HybridTime) : (a.MakeAtLeast b).v = max a.v b.v := by
  unfold HybridTime.MakeAtLeast
  split <;> omega

/-- `WaitForXClusterSafeTimeCaughtUp` never modifies the task fields. -/
theorem waitCaughtUp_state (st : TaskState) (res : Except Status HybridTime) :
    (WaitForXClusterSafeTimeCaughtUp st res).state = st := by
  unfold WaitForXClusterSafeTimeCaughtUp
  rcases h : GetXClusterSafeTimeWithoutDdlQueue res with e | o
  · rfl
  · rcases o with _ | ht
    · rfl
    · by_cases hle : ht.le st.initial_xcluster_safe_time_ <;> simp [hle]

/-- When the safe-time read returns a value, `WaitForXClusterSafeTimeCaughtUp`
either re-schedules itself (value still at or below the snapshot) or
completes (value strictly beyond it). -/
theorem waitCaughtUp_eq_of_read (st : TaskState) (res : Except Status HybridTime)
    (t : HybridTime) (h : GetXClusterSafeTimeWithoutDdlQueue res = Except.ok (some t)) :
    WaitForXClusterSafeTimeCaughtUp st res =
      if t.v ≤ st.initial_xcluster_safe_time_.v then
        ⟨Status.OK, false, Sched.withDelay StepName.WaitForXClusterSafeTimeCaughtUp,
          [RemoteCall.GetXClusterSafeTimeForNamespace], st, false⟩
      else
        ⟨Status.OK, true, Sched.none,
          [RemoteCall.GetXClusterSafeTimeForNamespace], st, false⟩ := by
  unfold WaitForXClusterSafeTimeCaughtUp
  rw [h]
  unfold HybridTime.le
  by_cases hle : t.v ≤ st.initial_xcluster_safe_time_.v <;> simp [hle]

/-! ## Claim theorems -/

/-- C1: whenever the safe-time read in `WaitForXClusterSafeTimeCaughtUp`
returns a value, the step calls `Complete` if and only if that value is
strictly greater than `initial_xcluster_safe_time_`; when the value is less
than or equal to it, the same step is re-scheduled with the fixed delay and
the task is not completed. -/
theorem waitCaughtUp_completes_iff_advanced
    (st : TaskState) (res : Except Status HybridTime) (t : HybridTime)
    (h : GetXClusterSafeTimeWithoutDdlQueue res = Except.ok (some t)) :
    ((WaitForXClusterSafeTimeCaughtUp st res).completed = true ↔
      st.initial_xcluster_safe_time_.v < t.v) ∧
    (t.v ≤ st.initial_xcluster_safe_time_.v →
      (WaitForXClusterSafeTimeCaughtUp st res).sched =
        Sched.withDelay StepName.WaitForXClusterSafeTimeCaughtUp ∧
      (WaitForXClusterSafeTimeCaughtUp st res).completed = false) := by
  rw [waitCaughtUp_eq_of_read st res t h]
  by_cases hle : t.v ≤ st.initial_xcluster_safe_time_.v <;> (simp [hle]; try omega)

/-- C1 witness: with `initial_xcluster_safe_time_ = 9` and a read value of 7
the step re-schedules itself with the delay and does not complete. -/
theorem waitCaughtUp_completes_iff_advanced_witness :
    GetXClusterSafeTimeWithoutDdlQueue (Except.ok (⟨7⟩ : HybridTime)) =
      Except.ok (some ⟨7⟩) ∧
    (7 : Nat) ≤ 9 ∧
    (WaitForXClusterSafeTimeCaughtUp ⟨false, ⟨3⟩, ⟨9⟩⟩ (Except.ok ⟨7⟩)).sched =
      Sched.withDelay StepName.WaitForXClusterSafeTimeCaughtUp ∧
    (WaitForXClusterSafeTimeCaughtUp ⟨false, ⟨3⟩, ⟨9⟩⟩ (Except.ok ⟨7⟩)).completed = false :=
  ⟨rfl, by decide,
    ((waitCaughtUp_completes_iff_advanced ⟨false, ⟨3⟩, ⟨9⟩⟩ (Except.ok ⟨7⟩) ⟨7⟩ rfl).2
      (by decide)).1,
    ((waitCaughtUp_completes_iff_advanced ⟨false, ⟨3⟩, ⟨9⟩⟩ (Except.ok ⟨7⟩) ⟨7⟩ rfl).2
      (by decide)).2⟩

/-- C2: in `AddTableToReplicationGroup`, for a checkpoint result with the
right cardinality: when the group is db-scoped (WHOLE_DATABASE),
`bootstrap_time_` is set to a timestamp synthesized from the current
wall-clock time and the time in the result is ignored (changing it changes
nothing); when the group is not db-scoped (EXPLICIT_TABLE_LIST),
`bootstrap_time_` is set to exactly the returned time, and if that time is
special ("invalid") the step fails with IllegalState, completing nothing,
scheduling nothing and issuing no membership mutation. -/
theorem addTable_checkpoint_time_selection
    (st : TaskState) (r : BootstrapProducerInfo) (t : HybridTime) (env : AddTableEnv)
    (hlen : r.producer_table_ids.length = 1 ∧ r.bootstrap_ids.length = 1) :
    (st.is_db_scoped_ = true →
      (AddTableToReplicationGroup st (Except.ok r) env).state.bootstrap_time_ =
        HybridTime.FromMicros env.now_micros ∧
      AddTableToReplicationGroup st (Except.ok { r with bootstrap_time := t }) env =
        AddTableToReplicationGroup st (Except.ok r) env) ∧
    (st.is_db_scoped_ = false → r.bootstrap_time.is_special = false →
      (AddTableToReplicationGroup st (Except.ok r) env).state.bootstrap_time_ =
        r.bootstrap_time) ∧
    (st.is_db_scoped_ = false → r.bootstrap_time.is_special = true →
      (AddTableToReplicationGroup st (Except.ok r) env).status =
        Status.IllegalState "xCluster Bootstrap time is not valid" ∧
      (AddTableToReplicationGroup st (Except.ok r) env).completed = false ∧
      (AddTableToReplicationGroup st (Except.ok r) env).sched = Sched.none ∧
      RemoteCall.AlterUniverseReplication ∉
        (AddTableToReplicationGroup st (Except.ok r) env).calls) := by
  refine ⟨fun hdb => ?_, fun hdb hsp => ?_, fun hdb hsp => ?_⟩
  · constructor
    · simp [AddTableToReplicationGroup, hlen.1, hlen.2, hdb, issueAlter_state]
    · simp [AddTableToReplicationGroup, hlen.1, hlen.2, hdb]
  · simp [AddTableToReplicationGroup, hlen.1, hlen.2, hdb, hsp, issueAlter_state]
  · simp [AddTableToReplicationGroup, hlen.1, hlen.2, hdb, hsp]

/-- C2 witness: a db-scoped add with one table id and one bootstrap id sets
`bootstrap_time_` to the time synthesized from the wall clock (1000 us), not
to the 42 returned by the checkpoint. -/
theorem addTable_checkpoint_time_selection_witness :
    ((["t1"] : List String).length = 1 ∧ (["b1"] : List String).length = 1) ∧
    (AddTableToReplicationGroup ⟨true, ⟨0⟩, ⟨0⟩⟩ (Except.ok ⟨["t1"], ["b1"], ⟨42⟩⟩)
      ⟨1000, Except.ok ⟨none⟩⟩).state.bootstrap_time_ = HybridTime.FromMicros 1000 :=
  ⟨⟨rfl, rfl⟩,
    ((addTable_checkpoint_time_selection ⟨true, ⟨0⟩, ⟨0⟩⟩ ⟨["t1"], ["b1"], ⟨42⟩⟩ ⟨0⟩
      ⟨1000, Except.ok ⟨none⟩⟩ ⟨rfl, rfl⟩).1 rfl).1⟩

/-- C3: when `RefreshAndGetXClusterSafeTime` reads a safe time,
`initial_xcluster_safe_time_` becomes the max of that safe time and
`bootstrap_time_` (hence is at least `bootstrap_time_`), the catch-up wait is
scheduled with the fixed delay, and the catch-up step never modifies the task
fields afterwards. -/
theorem refresh_initial_safe_time_invariant
    (st : TaskState) (env : RefreshEnv) (t : HybridTime)
    (hrefresh : env.refresh_status.isOK = true)
    (hread : GetXClusterSafeTimeWithoutDdlQueue env.safe_time_res = Except.ok (some t)) :
    (RefreshAndGetXClusterSafeTime st env).state.initial_xcluster_safe_time_.v =
      max t.v st.bootstrap_time_.v ∧
    st.bootstrap_time_.v ≤
      (RefreshAndGetXClusterSafeTime st env).state.initial_xcluster_safe_time_.v ∧
    (RefreshAndGetXClusterSafeTime st env).sched =
      Sched.withDelay StepName.WaitForXClusterSafeTimeCaughtUp ∧
    (∀ res2 : Except Status HybridTime,
      (WaitForXClusterSafeTimeCaughtUp
        (RefreshAndGetXClusterSafeTime st env).state res2).state =
      (RefreshAndGetXClusterSafeTime st env).state) := by
  have hstep : RefreshAndGetXClusterSafeTime st env =
      ⟨Status.OK, false, Sched.withDelay StepName.WaitForXClusterSafeTimeCaughtUp,
        [RemoteCall.RefreshXClusterSafeTimeMap, RemoteCall.GetXClusterSafeTimeForNamespace],
        { st with initial_xcluster_safe_time_ := t.MakeAtLeast st.bootstrap_time_ },
        false⟩ := by
    unfold RefreshAndGetXClusterSafeTime
    simp [hrefresh, hread]
  rw [hstep]
  refine ⟨?_, ?_, rfl, fun res2 => waitCaughtUp_state _ res2⟩
  · exact MakeAtLeast_v t st.bootstrap_time_
  · show st.bootstrap_time_.v ≤ (t.MakeAtLeast st.bootstrap_time_).v
    rw [MakeAtLeast_v]
    omega

/-- C3 witness: with `bootstrap_time_ = 10` and a read safe time of 7, the
snapshot becomes `max 7 10 = 10`. -/
theorem refresh_initial_safe_time_invariant_witness :
    Status.OK.isOK = true ∧
    GetXClusterSafeTimeWithoutDdlQueue (Except.ok (⟨7⟩ : HybridTime)) =
      Except.ok (some ⟨7⟩) ∧
    (RefreshAndGetXClusterSafeTime ⟨false, ⟨10⟩, ⟨0⟩⟩
      ⟨Status.OK, Except.ok ⟨7⟩⟩).state.initial_xcluster_safe_time_.v = max 7 10 :=
  ⟨rfl, rfl,
    (refresh_initial_safe_time_invariant ⟨false, ⟨10⟩, ⟨0⟩⟩
      ⟨Status.OK, Except.ok ⟨7⟩⟩ ⟨7⟩ rfl rfl).1⟩

/-- C4: a checkpoint result whose source-table-id or bootstrap-id list does
not have exactly one entry fires the `CHECK_EQ` (process crash) in
`AddTableToReplicationGroup`, and no membership mutation is issued, nothing
is scheduled and the task is not completed. -/
theorem addTable_cardinality_invariant
    (st : TaskState) (r : BootstrapProducerInfo) (env : AddTableEnv)
    (h : ¬(r.producer_table_ids.length = 1 ∧ r.bootstrap_ids.length = 1)) :
    (AddTableToReplicationGroup st (Except.ok r) env).crashed = true ∧
    RemoteCall.AlterUniverseReplication ∉
      (AddTableToReplicationGroup st (Except.ok r) env).calls ∧
    (AddTableToReplicationGroup st (Except.ok r) env).sched = Sched.none ∧
    (AddTableToReplicationGroup st (Except.ok r) env).completed = false := by
  simp [AddTableToReplicationGroup, h]

/-- C4 witness: a result with two source table ids crashes and issues no
mutation. -/
theorem addTable_cardinality_invariant_witness :
    ¬((["a", "b"] : List String).length = 1 ∧ (["c"] : List String).length = 1) ∧
    (AddTableToReplicationGroup ⟨true, ⟨0⟩, ⟨0⟩⟩ (Except.ok ⟨["a", "b"], ["c"], ⟨5⟩⟩)
      ⟨1, Except.ok ⟨none⟩⟩).crashed = true :=
  ⟨by decide,
    (addTable_cardinality_invariant ⟨true, ⟨0⟩, ⟨0⟩⟩ ⟨["a", "b"], ["c"], ⟨5⟩⟩
      ⟨1, Except.ok ⟨none⟩⟩ (by decide)).1⟩

/-- C5: a NotFound answer from the safe-time read makes both
`RefreshAndGetXClusterSafeTime` (after a successful refresh) and
`WaitForXClusterSafeTimeCaughtUp` complete the task with an OK status and
schedule no further polling. -/
theorem notfound_short_circuit
    (st : TaskState) (env : RefreshEnv) (e : Status)
    (hrefresh : env.refresh_status.isOK = true)
    (hres : env.safe_time_res = Except.error e)
    (hnf : e.IsNotFound = true) :
    RefreshAndGetXClusterSafeTime st env =
      ⟨Status.OK, true, Sched.none,
        [RemoteCall.RefreshXClusterSafeTimeMap, RemoteCall.GetXClusterSafeTimeForNamespace],
        st, false⟩ ∧
    WaitForXClusterSafeTimeCaughtUp st env.safe_time_res =
      ⟨Status.OK, true, Sched.none,
        [RemoteCall.GetXClusterSafeTimeForNamespace], st, false⟩ := by
  have hget : GetXClusterSafeTimeWithoutDdlQueue env.safe_time_res = Except.ok none := by
    rw [hres]
    simp [GetXClusterSafeTimeWithoutDdlQueue, hnf]
  constructor
  · unfold RefreshAndGetXClusterSafeTime
    simp [hrefresh, hget]
  · unfold WaitForXClusterSafeTimeCaughtUp
    rw [hget]

/-- C5 witness: a NotFound read completes both steps without scheduling. -/
theorem notfound_short_circuit_witness :
    Status.OK.isOK = true ∧
    (Except.error (⟨StatusCode.notFound, "nf"⟩ : Status) :
      Except Status HybridTime) = Except.error ⟨StatusCode.notFound, "nf"⟩ ∧
    (⟨StatusCode.notFound, "nf"⟩ : Status).IsNotFound = true ∧
    RefreshAndGetXClusterSafeTime ⟨false, ⟨3⟩, ⟨4⟩⟩
      ⟨Status.OK, Except.error ⟨StatusCode.notFound, "nf"⟩⟩ =
      ⟨Status.OK, true, Sched.none,
        [RemoteCall.RefreshXClusterSafeTimeMap, RemoteCall.GetXClusterSafeTimeForNamespace],
        ⟨false, ⟨3⟩, ⟨4⟩⟩, false⟩ :=
  ⟨rfl, rfl, rfl,
    (notfound_short_circuit ⟨false, ⟨3⟩, ⟨4⟩⟩
      ⟨Status.OK, Except.error ⟨StatusCode.notFound, "nf"⟩⟩
      ⟨StatusCode.notFound, "nf"⟩ rfl rfl rfl).1⟩

/-- C6: once the checkpoint result passes validation, `AddTableToReplicationGroup`
issues exactly one membership mutation; a transport failure of that mutation
and an embedded response error are each returned as the step's (fatal) status,
and the next step `WaitForSetupUniverseReplicationToFinish` is scheduled
(with the fixed delay) exactly when the mutation succeeded with no embedded
error. -/
theorem addTable_mutation_error_propagation
    (st : TaskState) (r : BootstrapProducerInfo) (env : AddTableEnv)
    (hlen : r.producer_table_ids.length = 1 ∧ r.bootstrap_ids.length = 1)
    (hok : st.is_db_scoped_ = true ∨ r.bootstrap_time.is_special = false) :
    (AddTableToReplicationGroup st (Except.ok r) env).completed = false ∧
    (AddTableToReplicationGroup st (Except.ok r) env).calls =
      [RemoteCall.AlterUniverseReplication] ∧
    (AddTableToReplicationGroup st (Except.ok r) env).status =
      (match env.alter_result with
       | Except.error e => e
       | Except.ok resp => resp.error.getD Status.OK) ∧
    (AddTableToReplicationGroup st (Except.ok r) env).sched =
      (match env.alter_result with
       | Except.error _ => Sched.none
       | Except.ok resp =>
         match resp.error with
         | some _ => Sched.none
         | none => Sched.withDelay StepName.WaitForSetupUniverseReplicationToFinish) := by
  have hred : AddTableToReplicationGroup st (Except.ok r) env =
      issueAlter
        { st with bootstrap_time_ :=
            if st.is_db_scoped_ then HybridTime.FromMicros env.now_micros
            else r.bootstrap_time }
        env := by
    rcases hok with hdb | hsp
    · simp [AddTableToReplicationGroup, hlen.1, hlen.2, hdb]
    · by_cases hdb : st.is_db_scoped_ <;>
        simp [AddTableToReplicationGroup, hlen.1, hlen.2, hdb, hsp]
  rw [hred]
  exact ⟨(issueAlter_not_completed _ _).1, issueAlter_calls _ _,
    issueAlter_status _ _, issueAlter_sched _ _⟩

/-- C6 witness: a successful mutation with no embedded error schedules
`WaitForSetupUniverseReplicationToFinish` with the delay, completing nothing. -/
theorem addTable_mutation_error_propagation_witness :
    ((["t"] : List String).length = 1 ∧ (["b"] : List String).length = 1) ∧
    ((true : Bool) = true ∨ (⟨5⟩ : HybridTime).is_special = false) ∧
    (AddTableToReplicationGroup ⟨true, ⟨0⟩, ⟨0⟩⟩ (Except.ok ⟨["t"], ["b"], ⟨5⟩⟩)
      ⟨1, Except.ok ⟨none⟩⟩).sched =
      Sched.withDelay StepName.WaitForSetupUniverseReplicationToFinish :=
  ⟨⟨rfl, rfl⟩, Or.inl rfl,
    (addTable_mutation_error_propagation ⟨true, ⟨0⟩, ⟨0⟩⟩ ⟨["t"], ["b"], ⟨5⟩⟩
      ⟨1, Except.ok ⟨none⟩⟩ ⟨rfl, rfl⟩ (Or.inl rfl)).2.2.2⟩

/-- C7: when `ShouldAddTableToReplicationGroup` says the table does not need
adding, `FirstStep` completes the task with an OK status, schedules nothing
and issues zero remote calls. -/
theorem firstStep_no_add_completes
    (st : TaskState) (env : FirstStepEnv)
    (h : env.should_add = Except.ok false) :
    FirstStep st env = ⟨Status.OK, true, Sched.none, [], st, false⟩ := by
  unfold FirstStep
  rw [h]
  rfl

/-- C7 witness: a table already in scope completes immediately with no
remote calls. -/
theorem firstStep_no_add_completes_witness :
    (Except.ok false : Except Status Bool) = Except.ok false ∧
    FirstStep ⟨false, ⟨0⟩, ⟨0⟩⟩
      ⟨Except.ok false, false, false, Except.ok ⟨⟩, Status.OK,
        Except.ok "ns", Except.ok ⟨⟩, Status.OK⟩ =
      ⟨Status.OK, true, Sched.none, [], ⟨false, ⟨0⟩, ⟨0⟩⟩, false⟩ :=
  ⟨rfl,
    firstStep_no_add_completes ⟨false, ⟨0⟩, ⟨0⟩⟩
      ⟨Except.ok false, false, false, Except.ok ⟨⟩, Status.OK,
        Except.ok "ns", Except.ok ⟨⟩, Status.OK⟩ rfl⟩

/-- C8: when the table needs adding and the
`TEST_xcluster_fail_table_create_during_bootstrap` flag is set, `FirstStep`
fails with IllegalState, issues zero remote calls and schedules nothing; the
outcome does not depend on the abandon hook, which is only consulted after
the flag check. -/
theorem firstStep_fault_injection
    (st : TaskState) (env : FirstStepEnv) (b : Bool)
    (hadd : env.should_add = Except.ok true)
    (hflag : env.test_fail_flag = true) :
    FirstStep st env =
      ⟨Status.IllegalState "FLAGS_TEST_xcluster_fail_table_create_during_bootstrap",
        false, Sched.none, [], st, false⟩ ∧
    FirstStep st { env with abandon_task := b } = FirstStep st env := by
  obtain ⟨sa, tf, ab, xr, bc, pn, rc, cc⟩ := env
  simp only at hadd hflag
  subst hadd hflag
  exact ⟨rfl, rfl⟩

/-- C8 witness: the flag makes `FirstStep` fail with IllegalState and no
remote calls even with the abandon hook armed. -/
theorem firstStep_fault_injection_witness :
    (Except.ok true : Except Status Bool) = Except.ok true ∧
    (true : Bool) = true ∧
    FirstStep ⟨false, ⟨0⟩, ⟨0⟩⟩
      ⟨Except.ok true, true, true, Except.ok ⟨⟩, Status.OK,
        Except.ok "ns", Except.ok ⟨⟩, Status.OK⟩ =
      ⟨Status.IllegalState "FLAGS_TEST_xcluster_fail_table_create_during_bootstrap",
        false, Sched.none, [], ⟨false, ⟨0⟩, ⟨0⟩⟩, false⟩ :=
  ⟨rfl, rfl,
    (firstStep_fault_injection ⟨false, ⟨0⟩, ⟨0⟩⟩
      ⟨Except.ok true, true, true, Except.ok ⟨⟩, Status.OK,
        Except.ok "ns", Except.ok ⟨⟩, Status.OK⟩ false rfl rfl).1⟩

/-- C9: `WaitForSetupUniverseReplicationToFinish` re-schedules itself with
the fixed delay (returning OK) while the setup operation is not done;
propagates the operation's error status when it finished with an error; and
schedules `RefreshAndGetXClusterSafeTime` immediately (not with a delay) when
it finished successfully. -/
theorem waitForSetup_poll_behavior
    (st : TaskState) (r : IsOperationDoneResult) :
    (r.done = false →
      WaitForSetupUniverseReplicationToFinish st (Except.ok r) =
        ⟨Status.OK, false, Sched.withDelay StepName.WaitForSetupUniverseReplicationToFinish,
          [RemoteCall.IsSetupUniverseReplicationDone], st, false⟩) ∧
    (r.done = true → r.status.isOK = false →
      WaitForSetupUniverseReplicationToFinish st (Except.ok r) =
        ⟨r.status, false, Sched.none,
          [RemoteCall.IsSetupUniverseReplicationDone], st, false⟩) ∧
    (r.done = true → r.status.isOK = true →
      WaitForSetupUniverseReplicationToFinish st (Except.ok r) =
        ⟨Status.OK, false, Sched.now StepName.RefreshAndGetXClusterSafeTime,
          [RemoteCall.IsSetupUniverseReplicationDone], st, false⟩) := by
  refine ⟨fun h1 => ?_, fun h1 h2 => ?_, fun h1 h2 => ?_⟩
  · simp [WaitForSetupUniverseReplicationToFinish, h1]
  · simp [WaitForSetupUniverseReplicationToFinish, h1, h2]
  · simp [WaitForSetupUniverseReplicationToFinish, h1, h2]

/-- C9 witness: a not-yet-done poll re-schedules the same step with the
delay and returns OK. -/
theorem waitForSetup_poll_behavior_witness :
    (⟨false, Status.OK⟩ : IsOperationDoneResult).done = false ∧
    WaitForSetupUniverseReplicationToFinish ⟨false, ⟨0⟩, ⟨0⟩⟩
      (Except.ok ⟨false, Status.OK⟩) =
      ⟨Status.OK, false, Sched.withDelay StepName.WaitForSetupUniverseReplicationToFinish,
        [RemoteCall.IsSetupUniverseReplicationDone], ⟨false, ⟨0⟩, ⟨0⟩⟩, false⟩ :=
  ⟨rfl,
    (waitForSetup_poll_behavior ⟨false, ⟨0⟩, ⟨0⟩⟩ ⟨false, Status.OK⟩).1 rfl⟩

/-- C10: when the safe-time read returns a special ("invalid") timestamp,
`GetXClusterSafeTimeWithoutDdlQueue` turns it into an IllegalState error, and
both `RefreshAndGetXClusterSafeTime` (after a successful refresh) and
`WaitForXClusterSafeTimeCaughtUp` return that fatal error without completing
and without re-scheduling. -/
theorem special_safe_time_fatal
    (st : TaskState) (env : RefreshEnv) (t : HybridTime)
    (hrefresh : env.refresh_status.isOK = true)
    (hres : env.safe_time_res = Except.ok t)
    (hsp : t.is_special = true) :
    GetXClusterSafeTimeWithoutDdlQueue env.safe_time_res =
      Except.error (Status.IllegalState "Invalid safe time for namespace") ∧
    (RefreshAndGetXClusterSafeTime st env).status =
      Status.IllegalState "Invalid safe time for namespace" ∧
    (RefreshAndGetXClusterSafeTime st env).completed = false ∧
    (RefreshAndGetXClusterSafeTime st env).sched = Sched.none ∧
    (WaitForXClusterSafeTimeCaughtUp st env.safe_time_res).status =
      Status.IllegalState "Invalid safe time for namespace" ∧
    (WaitForXClusterSafeTimeCaughtUp st env.safe_time_res).completed = false ∧
    (WaitForXClusterSafeTimeCaughtUp st env.safe_time_res).sched = Sched.none := by
  have hget : GetXClusterSafeTimeWithoutDdlQueue env.safe_time_res =
      Except.error (Status.IllegalState "Invalid safe time for namespace") := by
    rw [hres]
    simp [GetXClusterSafeTimeWithoutDdlQueue, hsp]
  refine ⟨hget, ?_, ?_, ?_, ?_, ?_, ?_⟩ <;>
    simp [RefreshAndGetXClusterSafeTime, WaitForXClusterSafeTimeCaughtUp, hrefresh, hget]

/-- C10 witness: the minimum timestamp is special, so reading it is fatal in
the refresh step. -/
theorem special_safe_time_fatal_witness :
    Status.OK.isOK = true ∧
    (Except.ok (⟨0⟩ : HybridTime) : Except Status HybridTime) = Except.ok ⟨0⟩ ∧
    (⟨0⟩ : HybridTime).is_special = true ∧
    (RefreshAndGetXClusterSafeTime ⟨false, ⟨3⟩, ⟨4⟩⟩
      ⟨Status.OK, Except.ok ⟨0⟩⟩).status =
      Status.IllegalState "Invalid safe time for namespace" :=
  ⟨rfl, rfl, by decide,
    (special_safe_time_fatal ⟨false, ⟨3⟩, ⟨4⟩⟩ ⟨Status.OK, Except.ok ⟨0⟩⟩ ⟨0⟩
      rfl rfl (by decide)).2.1⟩

end YbMaster
